import Mathlib

/-!
Verification of the Dream Prompter remote-prediction client (a GIMP plugin
that submits prompts to the Replicate API).  The Python sources `api.py`,
`dialog_threads.py` and `constants.py` are embedded shallowly below: text is
`List Char`, bytes are `List Nat` (each < 256), floats used only as exact
small constants are `ℚ`, and external effects (the network, the Replicate
SDK, GdkPixbuf, GLib) are passed in as explicit oracles/environment fields.
-/

namespace DreamPrompter

/-! ## Basic text helpers (Python `str` operations used by the sources) -/

/-- Python `str.strip()`: drop leading and trailing whitespace. -/
def pyStrip (s : List Char) : List Char :=
  ((s.dropWhile Char.isWhitespace).reverse.dropWhile Char.isWhitespace).reverse

/-- Python `str.lower()` (ASCII-level model). -/
def toLowerL (s : List Char) : List Char := s.map Char.toLower

/-- Python `str.startswith(pat)`. -/
def leadsWith : List Char → List Char → Bool
  | [], _ => true
  | _ :: _, [] => false
  | c :: p, x :: xs => c = x && leadsWith p xs

/-- Python `str.endswith(pat)`. -/
def endsWithL (pat s : List Char) : Bool :=
  leadsWith pat.reverse s.reverse

/-- Python `str.partition(sep)` for a one-character separator: the text
before the first occurrence, and (if the separator occurs) the text after
it. -/
def partitionFirst (c : Char) : List Char → List Char × Option (List Char)
  | [] => ([], none)
  | x :: xs =>
    if x = c then ([], some xs)
    else
      let (pre, post) := partitionFirst c xs
      (x :: pre, post)

/-! ## `constants.py` -/

/-- `constants.py` line 17. -/
def MAX_REFERENCE_IMAGES_EDIT : Nat := 2

/-- `constants.py` line 20. -/
def MAX_REFERENCE_IMAGES_GENERATE : Nat := 3

/-- `constants.py` line 24 (`1.0`). -/
def PROGRESS_COMPLETE : ℚ := 1

/-- `constants.py` line 27 (`0.9`). -/
def PROGRESS_DOWNLOAD : ℚ := 9 / 10

/-- `constants.py` line 30 (`0.1`). -/
def PROGRESS_PREPARE : ℚ := 1 / 10

/-- `constants.py` line 33 (`0.7`). -/
def PROGRESS_PROCESS : ℚ := 7 / 10

/-- `constants.py` line 36 (`0.5`). -/
def PROGRESS_UPLOAD : ℚ := 1 / 2

/-- `constants.py` line 13. -/
def MAX_DOWNLOAD_SIZE_MB : Nat := 50

/-- `constants.py` line 54: trusted domains for image downloads.  The Python
value is a `set`; membership testing is all the code does with it, so a list
of the same three entries is an equivalent embedding. -/
def TRUSTED_DOMAINS : List (List Char) :=
  ["replicate.com".toList, "replicate.ai".toList, "api.replicate.com".toList]

/-! ## `api.py`: `_retry_with_backoff` (lines 287-331)

Python exceptions are embedded as an explicit error enumeration; the wrapped
function `func` is an oracle mapping the attempt number to its outcome, so a
"fails every time" function is expressible directly.  `time.sleep` is
recorded in a list of slept durations instead of actually sleeping. -/

/-- The exception classes distinguished by `_retry_with_backoff`:
`ConnectionError`, `TimeoutError`, `OSError`, `ReplicateError` (with its
optional `status` attribute), and any other exception class. -/
inductive PyErr
  | connectionError
  | timeoutError
  | osError
  | replicateError (status : Option Nat)
  | otherError
  deriving DecidableEq, Repr

/-- One invocation of the wrapped function either returns a value or raises. -/
inductive CallRes (α : Type)
  | ok (a : α)
  | exn (e : PyErr)
  deriving DecidableEq, Repr

/-- Whether `_retry_with_backoff` treats a raised exception as retryable:
`(ConnectionError, TimeoutError, OSError)` always, `ReplicateError` exactly
when `hasattr(e, "status") and e.status == 429`.  Any other exception class
(including non-429 `ReplicateError`) propagates without retry. -/
def caughtTransient : PyErr → Bool
  | .connectionError => true
  | .timeoutError => true
  | .osError => true
  | .replicateError status => status = some 429
  | .otherError => false

/-- The `for attempt in range(max_retries + 1)` loop of
`_retry_with_backoff`.  Returns: the outcome (`.ok (some a)` for a normal
return, `.error e` for a raised exception, `.ok none` for the loop falling
through — unreachable when the attempt list ends at `maxRetries`), the list
of slept delays, and the number of invocations of `f`. -/
def retryLoop {α : Type} (f : Nat → CallRes α) (maxRetries : Nat) (backoffFactor : ℚ) :
    List Nat → ℚ → Except PyErr (Option α) × List ℚ × Nat
  | [], _ => (.ok none, [], 0)
  | attempt :: rest, delay =>
    match f attempt with
    | .ok a => (.ok (some a), [], 1)
    | .exn e =>
      if caughtTransient e then
        if attempt < maxRetries then
          let (r, sleeps, calls) := retryLoop f maxRetries backoffFactor rest (delay * backoffFactor)
          (r, delay :: sleeps, calls + 1)
        else (.error e, [], 1)
      else (.error e, [], 1)

/-- `ReplicateAPI._retry_with_backoff(func)` with its default parameters
`max_retries=3`, `backoff_factor=2.0`, `initial_delay=1.0` (the only way the
sources call it, via `_run_streaming_prediction`). -/
def retryWithBackoff {α : Type} (f : Nat → CallRes α) :
    Except PyErr (Option α) × List ℚ × Nat :=
  retryLoop f 3 2 (List.range 4) 1

/-! ## `api.py`: `ReplicateAPI.__init__` (lines 72-100)

`os.getenv(ENV_TOKEN_VAR, "")` is an oracle argument (`envToken`, `none`
when the variable is unset); `REPLICATE_AVAILABLE` and the success of
`replicate.Client(...)` are passed as booleans. -/

/-- The exceptions `__init__` can raise. -/
inductive InitError
  | importError
  | valueError
  | runtimeError
  deriving DecidableEq, Repr

/-- The state `__init__` leaves on `self` on success. -/
structure ApiClient where
  apiKey : List Char
  modelVersion : List Char
  deriving DecidableEq, Repr

/-- `ReplicateAPI.__init__(api_key, model_version)`. -/
def replicateInit (replicateAvailable clientConstructs : Bool)
    (apiKey : List Char) (envToken : Option (List Char)) (modelVersion : List Char) :
    Except InitError ApiClient :=
  if ¬ replicateAvailable then .error .importError
  else
    let resolvedKey :=
      if apiKey ≠ [] ∧ pyStrip apiKey ≠ [] then pyStrip apiKey
      else pyStrip (envToken.getD [])
    if resolvedKey = [] then .error .valueError
    else if ¬ clientConstructs then .error .runtimeError
    else .ok ⟨resolvedKey, if modelVersion ≠ [] then pyStrip modelVersion else []⟩

/-! ## `api.py`: `ReplicateAPI._add_reference_images` (lines 386-404)

`_validate_reference_image` performs file I/O and GdkPixbuf decoding, so it
is an oracle `validate : path → Option handle` (`some` exactly when it
returns `(handle, True)`). -/

/-- `_add_reference_images(payload, reference_images, max_count)`: returns
the value stored under the payload key `"image_input"` (`none` when the key
is not added).  The function never rejects a batch: excess paths beyond
`maxCount` are dropped by the slice `reference_images[:max_count]`. -/
def addReferenceImages {η : Type} (validate : List Char → Option η)
    (referenceImages : List (List Char)) (maxCount : Nat) : Option (List η) :=
  if referenceImages = [] then none
  else
    let handles :=
      (referenceImages.take maxCount).foldl
        (fun acc imgPath =>
          match validate imgPath with
          | some h => acc ++ [h]
          | none => acc)
        []
    if handles.isEmpty then none else some handles

/-- Number of reference images attached to the payload. -/
def attachedCount {η : Type} (validate : List Char → Option η)
    (referenceImages : List (List Char)) (maxCount : Nat) : Nat :=
  match addReferenceImages validate referenceImages maxCount with
  | none => 0
  | some hs => hs.length

/-! ## `api.py`: `ReplicateAPI._download_image` (lines 692-752)

`urlparse` is external (Python stdlib); the downloader is embedded from the
line `parsed = urlparse(url)` on, over the two parsed fields it reads
(`scheme`, `netloc`).  The network is an oracle: `none` models
`urlopen` raising `URLError`/`OSError`, `some resp` a response with its
`content-type` header and its body as the chunk sequence successive
`response.read(8192)` calls yield.  The returned boolean records whether
`urlopen` was invoked (a connection attempt was made). -/

structure ParsedUrl where
  scheme : List Char
  netloc : List Char
  deriving DecidableEq, Repr

structure HttpResponse where
  contentType : List Char
  chunks : List (List Nat)
  deriving DecidableEq, Repr

/-- The chunked read loop of `_download_image`: accumulate chunks, returning
`none` the moment the cumulative size exceeds `maxSizeBytes`. -/
def readChunks (maxSizeBytes : Nat) : List Nat → List (List Nat) → Option (List Nat)
  | acc, [] => some acc
  | acc, chunk :: rest =>
    let downloaded := acc ++ chunk
    if maxSizeBytes < downloaded.length then none
    else readChunks maxSizeBytes downloaded rest

/-- `_download_image(url, max_size_bytes)` from the `urlparse` call onward:
`(result, connectionAttempted)`. -/
def downloadImage (net : Option HttpResponse) (parsed : ParsedUrl)
    (maxSizeBytes : Nat) : Option (List Nat) × Bool :=
  if parsed.scheme = [] ∨
      (toLowerL parsed.scheme ≠ "http".toList ∧ toLowerL parsed.scheme ≠ "https".toList) then
    (none, false)
  else
    let domain := toLowerL parsed.netloc
    if ¬ TRUSTED_DOMAINS.any (fun trusted => domain = trusted || endsWithL ('.' :: trusted) domain) then
      (none, false)
    else
      match net with
      | none => (none, true)
      | some response =>
        if ¬ leadsWith "image/".toList (toLowerL response.contentType) then (none, true)
        else (readChunks maxSizeBytes [] response.chunks, true)

/-- The scheme gate of `_download_image`, as a predicate on the parsed URL. -/
def schemeOk (parsed : ParsedUrl) : Prop :=
  parsed.scheme ≠ [] ∧
    (toLowerL parsed.scheme = "http".toList ∨ toLowerL parsed.scheme = "https".toList)

/-- The trusted-host gate of `_download_image`, as a predicate. -/
def hostTrusted (parsed : ParsedUrl) : Prop :=
  ∃ trusted ∈ TRUSTED_DOMAINS,
    toLowerL parsed.netloc = trusted ∨
      endsWithL ('.' :: trusted) (toLowerL parsed.netloc) = true

instance (parsed : ParsedUrl) : Decidable (schemeOk parsed) := by
  unfold schemeOk; infer_instance

instance (parsed : ParsedUrl) : Decidable (hostTrusted parsed) := by
  unfold hostTrusted; infer_instance

/-! ## `api.py`: `ReplicateAPI.edit_image` (lines 102-205) and
`ReplicateAPI.generate_image` (lines 207-285)

The progress callback is an explicit `Checkpoint → Bool` oracle (each
checkpoint of a run queries it at most once, so the attempt number is not
needed).  `integrator.export_current_region_to_bytes`,
`_run_streaming_prediction` and `_parse_image_response` wrap external
effects (GIMP, the network, GdkPixbuf) and enter the model as environment
fields: `exportOk` (the export returned non-empty bytes),
`predictionRaises` (the streaming prediction raised — `ReplicateError` or
any other exception, both caught by the surrounding `try`), and `parseOk`
(`_parse_image_response` produced a pixbuf).  The run result mirrors the
Python return value `(pixbuf_or_None, error_message_or_None)` and is
instrumented with the progress-invocation trace and a flag recording
whether `_run_streaming_prediction` was invoked. -/

/-- The named progress checkpoints of a run. -/
inductive Checkpoint
  | prepare
  | upload
  | process
  | download
  | complete
  deriving DecidableEq, Repr

/-- Position of a checkpoint in the fixed order of §4.4 of the design. -/
def ckPos : Checkpoint → Nat
  | .prepare => 0
  | .upload => 1
  | .process => 2
  | .download => 3
  | .complete => 4

/-- The distinct error messages `edit_image` / `generate_image` can return
(second tuple component). -/
inductive RunMsg
  | noClient
  | noImage
  | cancelled
  | exportFailed
  | apiError
  | parseFailed
  deriving DecidableEq, Repr

/-- Instrumented result of one `edit_image` / `generate_image` run. -/
structure RunOut where
  pixbuf : Bool
  errMsg : Option RunMsg
  trace : List (Checkpoint × ℚ)
  predictionCalled : Bool
  deriving DecidableEq, Repr

/-- Environment of one `edit_image` run. -/
structure EditEnv where
  clientAvailable : Bool
  imagePresent : Bool
  exportOk : Bool
  cb : Checkpoint → Bool
  predictionRaises : Bool
  parseOk : Bool

/-- `ReplicateAPI.edit_image`, instrumented.  Each early `return` of the
Python function is one branch; the trace lists the progress-callback
invocations made up to that point, in order. -/
def editImageRun (e : EditEnv) : RunOut :=
  if ¬ e.clientAvailable then ⟨false, some .noClient, [], false⟩
  else if ¬ e.imagePresent then ⟨false, some .noImage, [], false⟩
  else if ¬ e.cb .prepare then
    ⟨false, some .cancelled, [(.prepare, PROGRESS_PREPARE)], false⟩
  else if ¬ e.exportOk then
    ⟨false, some .exportFailed, [(.prepare, PROGRESS_PREPARE)], false⟩
  else if ¬ e.cb .upload then
    ⟨false, some .cancelled,
      [(.prepare, PROGRESS_PREPARE), (.upload, PROGRESS_UPLOAD)], false⟩
  else if ¬ e.cb .process then
    ⟨false, some .cancelled,
      [(.prepare, PROGRESS_PREPARE), (.upload, PROGRESS_UPLOAD),
        (.process, PROGRESS_PROCESS)], false⟩
  else if e.predictionRaises then
    ⟨false, some .apiError,
      [(.prepare, PROGRESS_PREPARE), (.upload, PROGRESS_UPLOAD),
        (.process, PROGRESS_PROCESS)], true⟩
  else if ¬ e.cb .download then
    ⟨false, some .cancelled,
      [(.prepare, PROGRESS_PREPARE), (.upload, PROGRESS_UPLOAD),
        (.process, PROGRESS_PROCESS), (.download, PROGRESS_DOWNLOAD)], true⟩
  else if ¬ e.parseOk then
    ⟨false, some .parseFailed,
      [(.prepare, PROGRESS_PREPARE), (.upload, PROGRESS_UPLOAD),
        (.process, PROGRESS_PROCESS), (.download, PROGRESS_DOWNLOAD)], true⟩
  else
    ⟨true, none,
      [(.prepare, PROGRESS_PREPARE), (.upload, PROGRESS_UPLOAD),
        (.process, PROGRESS_PROCESS), (.download, PROGRESS_DOWNLOAD),
        (.complete, PROGRESS_COMPLETE)], true⟩

/-- Environment of one `generate_image` run (no GIMP image, no export, no
upload checkpoint). -/
structure GenEnv where
  clientAvailable : Bool
  cb : Checkpoint → Bool
  predictionRaises : Bool
  parseOk : Bool

/-- `ReplicateAPI.generate_image`, instrumented like `editImageRun`. -/
def generateImageRun (e : GenEnv) : RunOut :=
  if ¬ e.clientAvailable then ⟨false, some .noClient, [], false⟩
  else if ¬ e.cb .prepare then
    ⟨false, some .cancelled, [(.prepare, PROGRESS_PREPARE)], false⟩
  else if ¬ e.cb .process then
    ⟨false, some .cancelled,
      [(.prepare, PROGRESS_PREPARE), (.process, PROGRESS_PROCESS)], false⟩
  else if e.predictionRaises then
    ⟨false, some .apiError,
      [(.prepare, PROGRESS_PREPARE), (.process, PROGRESS_PROCESS)], true⟩
  else if ¬ e.cb .download then
    ⟨false, some .cancelled,
      [(.prepare, PROGRESS_PREPARE), (.process, PROGRESS_PROCESS),
        (.download, PROGRESS_DOWNLOAD)], true⟩
  else if ¬ e.parseOk then
    ⟨false, some .parseFailed,
      [(.prepare, PROGRESS_PREPARE), (.process, PROGRESS_PROCESS),
        (.download, PROGRESS_DOWNLOAD)], true⟩
  else
    ⟨true, none,
      [(.prepare, PROGRESS_PREPARE), (.process, PROGRESS_PROCESS),
        (.download, PROGRESS_DOWNLOAD), (.complete, PROGRESS_COMPLETE)], true⟩

/-- The full checkpoint sequence of an edit run. -/
def editCheckpoints : List (Checkpoint × ℚ) :=
  [(.prepare, PROGRESS_PREPARE), (.upload, PROGRESS_UPLOAD),
    (.process, PROGRESS_PROCESS), (.download, PROGRESS_DOWNLOAD),
    (.complete, PROGRESS_COMPLETE)]

/-- The full checkpoint sequence of a generate run. -/
def genCheckpoints : List (Checkpoint × ℚ) :=
  [(.prepare, PROGRESS_PREPARE), (.process, PROGRESS_PROCESS),
    (.download, PROGRESS_DOWNLOAD), (.complete, PROGRESS_COMPLETE)]

/-! ## `dialog_threads.py`: worker terminal handlers (lines 233-538)

The worker body of `DreamPrompterThreads._generate_image_worker` /
`_edit_image_worker`, together with the terminal handlers
`_handle_cancelled` / `_handle_error` / `_handle_generated_image` /
`_handle_edited_image` / `_handle_success`, is embedded as a function from
an environment to the sequence of state-reset/terminal-callback events the
request produces (in the order GLib's idle queue runs them).  Both
`on_success` and `on_error` are assumed registered in `self._callbacks`.
UI status updates carry no state and are omitted from the event trace. -/

/-- Observable orchestrator events: `self._state.set_processing(False)` and
the two registered terminal callbacks. -/
inductive WorkerEv
  | resetProcessing
  | cbError
  | cbSuccess
  deriving DecidableEq, Repr

/-- Terminal outcome of a worker request. -/
inductive WorkerOutcome
  | cancelled
  | errored
  | succeeded
  deriving DecidableEq, Repr

/-- `_handle_cancelled` (lines 458-464): resets state, fires no callback. -/
def handleCancelledTrace : List WorkerEv := [.resetProcessing]

/-- `_handle_error` (lines 466-479): resets state, then fires `on_error`. -/
def handleErrorTrace : List WorkerEv := [.resetProcessing, .cbError]

/-- `_handle_success` (lines 529-537): resets state, then fires `on_success`. -/
def handleSuccessTrace : List WorkerEv := [.resetProcessing, .cbSuccess]

/-- `_handle_generated_image` / `_handle_edited_image` (lines 481-527):
integration failure or an exception ends in `_handle_error`, success in
`_handle_success`. -/
def handleResultImage (integrationRaises integrationOk : Bool) :
    WorkerOutcome × List WorkerEv :=
  if integrationRaises then (.errored, handleErrorTrace)
  else if ¬ integrationOk then (.errored, handleErrorTrace)
  else (.succeeded, handleSuccessTrace)

/-- Environment of one `_generate_image_worker` run.  `apiRaises` covers the
worker's `except` clauses (ImportError, ValueError/TypeError,
ConnectionError/TimeoutError, and the catch-all), all of which end in
`_handle_error`; `apiPixbuf`/`apiErrMsg` are the tuple `generate_image`
returned when it did not raise. -/
structure WorkerEnv where
  cancelAtStart : Bool
  apiRaises : Bool
  apiPixbuf : Bool
  apiErrMsg : Bool
  cancelAfterApi : Bool
  integrationRaises : Bool
  integrationOk : Bool
  deriving DecidableEq, Repr

/-- `_generate_image_worker` plus the idle-queued handler it selects. -/
def generateWorkerRun (e : WorkerEnv) : WorkerOutcome × List WorkerEv :=
  if e.cancelAtStart then (.cancelled, handleCancelledTrace)
  else if e.apiRaises then (.errored, handleErrorTrace)
  else if e.cancelAfterApi then (.cancelled, handleCancelledTrace)
  else if e.apiErrMsg then (.errored, handleErrorTrace)
  else if ¬ e.apiPixbuf then (.errored, handleErrorTrace)
  else handleResultImage e.integrationRaises e.integrationOk

/-- `_edit_image_worker` plus the idle-queued handler it selects; the extra
`imagePresent` field models the worker's `if not self.image` guard. -/
def editWorkerRun (imagePresent : Bool) (e : WorkerEnv) :
    WorkerOutcome × List WorkerEv :=
  if e.cancelAtStart then (.cancelled, handleCancelledTrace)
  else if ¬ imagePresent then (.errored, handleErrorTrace)
  else if e.apiRaises then (.errored, handleErrorTrace)
  else if e.cancelAfterApi then (.cancelled, handleCancelledTrace)
  else if e.apiErrMsg then (.errored, handleErrorTrace)
  else if ¬ e.apiPixbuf then (.errored, handleErrorTrace)
  else handleResultImage e.integrationRaises e.integrationOk

/-! ## `dialog_threads.py`: start/cancel state machine (lines 20-231)

`ThreadSafeState` holds `(processing, cancel_requested)` under a lock; the
lock serialises the UI-thread operations modelled here, so the state machine
is embedded sequentially.  `start_generate_thread` / `start_edit_thread`
validate inputs and, only when everything passes, set `processing := true`,
reset the cancel flag and spawn a worker (recorded as a boolean). -/

/-- `ThreadSafeState` plus the orchestrator fields the start gates read. -/
structure OrchState where
  processing : Bool
  cancelRequested : Bool
  modelVersion : Option (List Char)
  hasImage : Bool
  hasDrawable : Bool
  deriving DecidableEq, Repr

/-- `ThreadSafeState.can_start_processing` (lines 53-56). -/
def canStartProcessing (s : OrchState) : Bool :=
  ¬ s.processing ∧ ¬ s.cancelRequested

/-- `DreamPrompterThreads.cancel_processing` (lines 89-92). -/
def cancelProcessing (s : OrchState) : OrchState :=
  { s with cancelRequested := true }

/-- `DreamPrompterThreads._normalize_model_version` (lines 120-133). -/
def normalizeModelVersion (s : OrchState) (modelVersion : Option (List Char)) :
    List Char :=
  match modelVersion with
  | some mv =>
    if pyStrip mv ≠ [] then pyStrip mv
    else match s.modelVersion with
      | some previous => if pyStrip previous ≠ [] then pyStrip previous else []
      | none => []
  | none =>
    match s.modelVersion with
    | some previous => if pyStrip previous ≠ [] then pyStrip previous else []
    | none => []

/-- `DreamPrompterThreads.start_generate_thread` (lines 135-178): the new
state and whether a worker thread was started.  Validation failures call
`_handle_error` synchronously, which sets `processing := false` (it already
is) and leaves `cancel_requested` untouched. -/
def startGenerateThread (s : OrchState) (apiKey prompt : List Char)
    (modelVersion : Option (List Char)) : OrchState × Bool :=
  if ¬ canStartProcessing s then (s, false)
  else if apiKey = [] ∨ pyStrip apiKey = [] then ({ s with processing := false }, false)
  else if prompt = [] ∨ pyStrip prompt = [] then ({ s with processing := false }, false)
  else
    let resolvedModel := normalizeModelVersion s modelVersion
    if resolvedModel = [] then ({ s with processing := false }, false)
    else
      ({ s with
          processing := true
          cancelRequested := false
          modelVersion := some resolvedModel }, true)

/-- `DreamPrompterThreads.start_edit_thread` (lines 180-231). -/
def startEditThread (s : OrchState) (apiKey prompt : List Char)
    (modelVersion : Option (List Char)) : OrchState × Bool :=
  if ¬ canStartProcessing s then (s, false)
  else if ¬ s.hasDrawable then ({ s with processing := false }, false)
  else if ¬ s.hasImage then ({ s with processing := false }, false)
  else if apiKey = [] ∨ pyStrip apiKey = [] then ({ s with processing := false }, false)
  else if prompt = [] ∨ pyStrip prompt = [] then ({ s with processing := false }, false)
  else
    let resolvedModel := normalizeModelVersion s modelVersion
    if resolvedModel = [] then ({ s with processing := false }, false)
    else
      ({ s with
          processing := true
          cancelRequested := false
          modelVersion := some resolvedModel }, true)

/-- The operations a user can trigger on an idle orchestrator. -/
inductive OrchOp
  | cancel
  | startGen (apiKey prompt : List Char) (modelVersion : Option (List Char))
  | startEdit (apiKey prompt : List Char) (modelVersion : Option (List Char))

/-- One operation step: resulting state and whether a worker was started. -/
def orchStep (s : OrchState) : OrchOp → OrchState × Bool
  | .cancel => (cancelProcessing s, false)
  | .startGen apiKey prompt mv => startGenerateThread s apiKey prompt mv
  | .startEdit apiKey prompt mv => startEditThread s apiKey prompt mv

/-- Run a sequence of operations; the boolean records whether any worker was
ever started. -/
def orchRun (s : OrchState) : List OrchOp → OrchState × Bool
  | [] => (s, false)
  | op :: rest =>
    let (s', started) := orchStep s op
    let (s'', startedLater) := orchRun s' rest
    (s'', started || startedLater)

/-! ## Base64 (`base64.b64decode` / `base64.b64encode`)

`_extract_image_bytes` decodes candidate strings with
`base64.b64decode(candidate)` (default `validate=False`: characters outside
the standard alphabet are discarded before the padding check, and incorrect
padding raises `binascii.Error`, which the caller catches).  The codec is
embedded below: `b64encode` for building round-trip inputs, `b64decodePy`
for the decoder, with `none` standing for a raised-and-caught decode
error. -/

/-- The standard base64 alphabet. -/
def b64Alphabet : List Char :=
  "ABCDEFGHIJKLMNOPQRSTUVWXYZabcdefghijklmnopqrstuvwxyz0123456789+/".toList

/-- Character of a sextet value (values ≥ 64 never arise from valid input). -/
def b64CharOf (i : Nat) : Char := b64Alphabet.getD i 'A'

/-- Sextet value of a character, `none` outside the alphabet. -/
def b64IdxOf (c : Char) : Option Nat := b64Alphabet.findIdx? (fun a => a = c)

/-- Standard base64 encoding of a byte list (each byte < 256). -/
def b64encode : List Nat → List Char
  | [] => []
  | [b0] => [b64CharOf (b0 / 4), b64CharOf (b0 % 4 * 16), '=', '=']
  | [b0, b1] =>
    [b64CharOf (b0 / 4), b64CharOf (b0 % 4 * 16 + b1 / 16),
      b64CharOf (b1 % 16 * 4), '=']
  | b0 :: b1 :: b2 :: rest =>
    b64CharOf (b0 / 4) :: b64CharOf (b0 % 4 * 16 + b1 / 16) ::
      b64CharOf (b1 % 16 * 4 + b2 / 64) :: b64CharOf (b2 % 64) :: b64encode rest

/-- The character-discarding step of `b64decode(validate=False)`: characters
neither in the alphabet nor `'='` are dropped. -/
def b64filter (s : List Char) : List Char :=
  s.filter (fun c => (b64IdxOf c).isSome || c = '=')

/-- Decode the filtered text in groups of four characters; `'='` padding is
accepted only at the end.  `none` models `binascii.Error` (bad length, bad
padding). -/
def b64groups : List Char → Option (List Nat)
  | [] => some []
  | c0 :: c1 :: c2 :: c3 :: rest =>
    (b64IdxOf c0).bind fun i0 =>
    (b64IdxOf c1).bind fun i1 =>
    if c2 = '=' then
      if c3 = '=' ∧ rest = [] then some [i0 * 4 + i1 / 16] else none
    else
      (b64IdxOf c2).bind fun i2 =>
      if c3 = '=' then
        if rest = [] then some [i0 * 4 + i1 / 16, i1 % 16 * 16 + i2 / 4]
        else none
      else
        (b64IdxOf c3).bind fun i3 =>
        (b64groups rest).map fun bs =>
          (i0 * 4 + i1 / 16) :: (i1 % 16 * 16 + i2 / 4) :: (i2 % 4 * 64 + i3) :: bs
  | _ => none

/-- `base64.b64decode(s)` with default arguments, as the sources call it. -/
def b64decodePy (s : List Char) : Option (List Nat) :=
  b64groups (b64filter s)

/-! ## `api.py`: `ReplicateAPI._extract_image_bytes`, string case
(lines 639-663)

The URL branch delegates to `_download_image`, entering here as the oracle
`downloadFn`.  The result is instrumented with a flag recording whether
`base64.b64decode` was invoked (i.e. whether the decoded buffer was
materialized). -/

/-- The candidate text passed to `b64decode`: Python
`_, _, encoded = data.partition(","); candidate = encoded or data`. -/
def extractCandidate (data : List Char) : List Char :=
  let encoded := ((partitionFirst ',' data).2).getD []
  if encoded = [] then data else encoded

/-- `_extract_image_bytes` restricted to `isinstance(data, str)` inputs,
instrumented: `(result, b64decode was invoked)`. -/
def extractFromStringI (downloadFn : List Char → Option (List Nat))
    (data : List Char) : Option (List Nat) × Bool :=
  if leadsWith "http://".toList data || leadsWith "https://".toList data then
    (downloadFn data, false)
  else
    let candidate := extractCandidate data
    if 134217728 < candidate.length then (none, false)
    else
      match b64decodePy candidate with
      | none => (none, true)
      | some decodedBytes =>
        if 104857600 < decodedBytes.length then (none, true)
        else (some decodedBytes, true)

/-- The data-URI strings of the round-trip property:
`"data:image/png;base64," + base64(X)`. -/
def dataUriOf (X : List Nat) : List Char :=
  "data:image/png;base64,".toList ++ b64encode X

/-! ## Helper lemmas: base64 -/

/-- Induction along `b64encode`'s three-byte chunking. -/
theorem threeChunk {P : List Nat → Prop} (h0 : P []) (h1 : ∀ b0, P [b0])
    (h2 : ∀ b0 b1, P [b0, b1])
    (h3 : ∀ b0 b1 b2 rest, P rest → P (b0 :: b1 :: b2 :: rest)) :
    ∀ l, P l
  | [] => h0
  | [b0] => h1 b0
  | [b0, b1] => h2 b0 b1
  | b0 :: b1 :: b2 :: rest => h3 b0 b1 b2 rest (threeChunk h0 h1 h2 h3 rest)

/-- Induction along `b64groups`'s four-character chunking. -/
theorem fourChunk {α : Type} {P : List α → Prop} (h0 : P []) (h1 : ∀ a, P [a])
    (h2 : ∀ a b, P [a, b]) (h3 : ∀ a b c, P [a, b, c])
    (h4 : ∀ a b c d rest, P rest → P (a :: b :: c :: d :: rest)) :
    ∀ l, P l
  | [] => h0
  | [a] => h1 a
  | [a, b] => h2 a b
  | [a, b, c] => h3 a b c
  | a :: b :: c :: d :: rest => h4 a b c d rest (fourChunk h0 h1 h2 h3 h4 rest)

theorem b64IdxOf_b64CharOf : ∀ i, i < 64 → b64IdxOf (b64CharOf i) = some i := by
  decide

theorem b64IdxOf_eqChar : b64IdxOf '=' = none := by decide

theorem b64CharOf_ne_eqChar {i : Nat} (h : i < 64) : b64CharOf i ≠ '=' := by
  intro hc
  have hi := b64IdxOf_b64CharOf i h
  rw [hc, b64IdxOf_eqChar] at hi
  exact Option.noConfusion hi

theorem b64Valid_b64CharOf {i : Nat} (h : i < 64) :
    ((b64IdxOf (b64CharOf i)).isSome || (b64CharOf i = '=')) = true := by
  rw [b64IdxOf_b64CharOf i h]
  rfl

theorem b64Valid_eqChar : ((b64IdxOf '=').isSome || ('=' = '=')) = true := by decide

theorem b64filter_encode (X : List Nat) (h : ∀ b ∈ X, b < 256) :
    b64filter (b64encode X) = b64encode X := by
  refine List.filter_eq_self.mpr ?_
  induction X using threeChunk with
  | h0 => simp [b64encode]
  | h1 b0 =>
    have hb0 : b0 < 256 := h b0 (by simp)
    intro a ha
    simp only [b64encode, List.mem_cons, List.not_mem_nil, or_false] at ha
    rcases ha with rfl | rfl | rfl | rfl
    · exact b64Valid_b64CharOf (by omega)
    · exact b64Valid_b64CharOf (by omega)
    · exact b64Valid_eqChar
    · exact b64Valid_eqChar
  | h2 b0 b1 =>
    have hb0 : b0 < 256 := h b0 (by simp)
    have hb1 : b1 < 256 := h b1 (by simp)
    intro a ha
    simp only [b64encode, List.mem_cons, List.not_mem_nil, or_false] at ha
    rcases ha with rfl | rfl | rfl | rfl
    · exact b64Valid_b64CharOf (by omega)
    · exact b64Valid_b64CharOf (by omega)
    · exact b64Valid_b64CharOf (by omega)
    · exact b64Valid_eqChar
  | h3 b0 b1 b2 rest ih =>
    have hb0 : b0 < 256 := h b0 (by simp)
    have hb1 : b1 < 256 := h b1 (by simp)
    have hb2 : b2 < 256 := h b2 (by simp)
    intro a ha
    simp only [b64encode, List.mem_cons] at ha
    rcases ha with rfl | rfl | rfl | rfl | ha
    · exact b64Valid_b64CharOf (by omega)
    · exact b64Valid_b64CharOf (by omega)
    · exact b64Valid_b64CharOf (by omega)
    · exact b64Valid_b64CharOf (by omega)
    · exact ih (fun b hb => h b (by simp [hb])) a ha

theorem b64groups_encode (X : List Nat) (h : ∀ b ∈ X, b < 256) :
    b64groups (b64encode X) = some X := by
  induction X using threeChunk with
  | h0 => rfl
  | h1 b0 =>
    have hb0 : b0 < 256 := h b0 (by simp)
    show b64groups [b64CharOf (b0 / 4), b64CharOf (b0 % 4 * 16), '=', '='] = some [b0]
    rw [b64groups, b64IdxOf_b64CharOf _ (by omega), b64IdxOf_b64CharOf _ (by omega)]
    simp only [Option.some_bind, if_pos rfl, and_self, ite_true]
    congr 2
    omega
  | h2 b0 b1 =>
    have hb0 : b0 < 256 := h b0 (by simp)
    have hb1 : b1 < 256 := h b1 (by simp)
    show b64groups [b64CharOf (b0 / 4), b64CharOf (b0 % 4 * 16 + b1 / 16),
        b64CharOf (b1 % 16 * 4), '='] = some [b0, b1]
    rw [b64groups, b64IdxOf_b64CharOf _ (by omega), b64IdxOf_b64CharOf _ (by omega)]
    simp only [Option.some_bind]
    rw [if_neg (b64CharOf_ne_eqChar (by omega)), b64IdxOf_b64CharOf _ (by omega)]
    simp only [Option.some_bind, if_pos rfl, ite_true]
    have e0 : b0 / 4 * 4 + (b0 % 4 * 16 + b1 / 16) / 16 = b0 := by omega
    have e1 : (b0 % 4 * 16 + b1 / 16) % 16 * 16 + b1 % 16 * 4 / 4 = b1 := by omega
    rw [e0, e1]
  | h3 b0 b1 b2 rest ih =>
    have hb0 : b0 < 256 := h b0 (by simp)
    have hb1 : b1 < 256 := h b1 (by simp)
    have hb2 : b2 < 256 := h b2 (by simp)
    have ih' := ih (fun b hb => h b (by simp [hb]))
    show b64groups (b64CharOf (b0 / 4) :: b64CharOf (b0 % 4 * 16 + b1 / 16) ::
        b64CharOf (b1 % 16 * 4 + b2 / 64) :: b64CharOf (b2 % 64) :: b64encode rest)
      = some (b0 :: b1 :: b2 :: rest)
    rw [b64groups, b64IdxOf_b64CharOf _ (by omega), b64IdxOf_b64CharOf _ (by omega)]
    simp only [Option.some_bind]
    rw [if_neg (b64CharOf_ne_eqChar (by omega)), b64IdxOf_b64CharOf _ (by omega)]
    simp only [Option.some_bind]
    rw [if_neg (b64CharOf_ne_eqChar (by omega)), b64IdxOf_b64CharOf _ (by omega)]
    simp only [Option.some_bind]
    rw [ih']
    simp only [Option.map_some']
    have e0 : b0 / 4 * 4 + (b0 % 4 * 16 + b1 / 16) / 16 = b0 := by omega
    have e1 : (b0 % 4 * 16 + b1 / 16) % 16 * 16 + (b1 % 16 * 4 + b2 / 64) / 4 = b1 := by
      omega
    have e2 : (b1 % 16 * 4 + b2 / 64) % 4 * 64 + b2 % 64 = b2 := by omega
    rw [e0, e1, e2]

theorem b64decodePy_encode (X : List Nat) (h : ∀ b ∈ X, b < 256) :
    b64decodePy (b64encode X) = some X := by
  rw [b64decodePy, b64filter_encode X h, b64groups_encode X h]

theorem b64encode_length : ∀ X : List Nat,
    (b64encode X).length = 4 * ((X.length + 2) / 3) := by
  intro X
  induction X using threeChunk with
  | h0 => rfl
  | h1 b0 => simp [b64encode]
  | h2 b0 b1 => simp [b64encode]
  | h3 b0 b1 b2 rest ih =>
    simp only [b64encode, List.length_cons, ih]
    omega

theorem b64encode_ne_nil : ∀ {X : List Nat}, X ≠ [] → b64encode X ≠ []
  | [], h => absurd rfl h
  | [_], _ => by simp [b64encode]
  | [_, _], _ => by simp [b64encode]
  | _ :: _ :: _ :: _, _ => by simp [b64encode]

theorem b64groups_length : ∀ s : List Char, ∀ bs : List Nat,
    b64groups s = some bs → 4 * bs.length ≤ 3 * s.length := by
  intro s
  induction s using fourChunk with
  | h0 =>
    intro bs h
    rw [show b64groups [] = some [] from rfl] at h
    cases h
    simp
  | h1 a =>
    intro bs h
    rw [show b64groups [a] = none from rfl] at h
    cases h
  | h2 a b =>
    intro bs h
    rw [show b64groups [a, b] = none from rfl] at h
    cases h
  | h3 a b c =>
    intro bs h
    rw [show b64groups [a, b, c] = none from rfl] at h
    cases h
  | h4 c0 c1 c2 c3 rest ih =>
    intro bs h
    rw [b64groups] at h
    cases hc0 : b64IdxOf c0 with
    | none => rw [hc0, Option.none_bind] at h; cases h
    | some i0 =>
      rw [hc0, Option.some_bind] at h
      cases hc1 : b64IdxOf c1 with
      | none => rw [hc1, Option.none_bind] at h; cases h
      | some i1 =>
        rw [hc1, Option.some_bind] at h
        by_cases he2 : c2 = '='
        · rw [if_pos he2] at h
          by_cases he3 : c3 = '=' ∧ rest = []
          · rw [if_pos he3] at h
            cases h
            simp only [List.length_cons, List.length_nil]
            omega
          · rw [if_neg he3] at h; cases h
        · rw [if_neg he2] at h
          cases hc2 : b64IdxOf c2 with
          | none => rw [hc2, Option.none_bind] at h; cases h
          | some i2 =>
            rw [hc2, Option.some_bind] at h
            by_cases he3 : c3 = '='
            · rw [if_pos he3] at h
              by_cases hr : rest = []
              · rw [if_pos hr] at h
                cases h
                simp only [List.length_cons, List.length_nil]
                omega
              · rw [if_neg hr] at h; cases h
            · rw [if_neg he3] at h
              cases hc3 : b64IdxOf c3 with
              | none => rw [hc3, Option.none_bind] at h; cases h
              | some i3 =>
                rw [hc3, Option.some_bind] at h
                cases hrest : b64groups rest with
                | none => rw [hrest, Option.map_none'] at h; cases h
                | some bs' =>
                  rw [hrest, Option.map_some'] at h
                  cases h
                  have hlen := ih bs' hrest
                  simp only [List.length_cons]
                  omega

theorem b64decodePy_length (s : List Char) (bs : List Nat)
    (h : b64decodePy s = some bs) : 4 * bs.length ≤ 3 * s.length := by
  have h1 := b64groups_length (b64filter s) bs h
  have h2 : (b64filter s).length ≤ s.length := List.length_filter_le _ s
  omega

/-! ## Helper lemmas: text splitting and the decoder's candidate -/

theorem partitionFirst_not_mem {c : Char} :
    ∀ {l : List Char}, c ∉ l → partitionFirst c l = (l, none)
  | [], _ => rfl
  | x :: xs, h => by
    have hx : ¬ x = c := fun hxc => h (by simp [hxc])
    have hxs : c ∉ xs := fun hm => h (List.mem_cons_of_mem x hm)
    simp only [partitionFirst, if_neg hx, partitionFirst_not_mem hxs]

theorem partitionFirst_append {c : Char} :
    ∀ (p rest : List Char), c ∉ p → partitionFirst c (p ++ c :: rest) = (p, some rest)
  | [], rest, _ => by simp [partitionFirst]
  | x :: xs, rest, h => by
    have hx : ¬ x = c := fun hxc => h (by simp [hxc])
    have hxs : c ∉ xs := fun hm => h (List.mem_cons_of_mem x hm)
    simp only [List.cons_append, partitionFirst, if_neg hx, List.append_eq,
      partitionFirst_append xs rest hxs]

theorem leadsWith_cons_ne {a x : Char} (h : a ≠ x) (p l : List Char) :
    leadsWith (a :: p) (x :: l) = false := by
  simp [leadsWith, h]

theorem leadsWith_replicate_A {a : Char} (p : List Char) (ha : a ≠ 'A') :
    ∀ n, leadsWith (a :: p) (List.replicate n 'A') = false
  | 0 => rfl
  | n + 1 => by rw [List.replicate_succ]; exact leadsWith_cons_ne ha p _

theorem notUrl_replicate_A (n : Nat) :
    (leadsWith "http://".toList (List.replicate n 'A')
      || leadsWith "https://".toList (List.replicate n 'A')) = false := by
  rw [show "http://".toList = 'h' :: "ttp://".toList from rfl]
  rw [show "https://".toList = 'h' :: "ttps://".toList from rfl]
  rw [leadsWith_replicate_A _ (by decide) n, leadsWith_replicate_A _ (by decide) n]
  rfl

theorem notUrl_dataUri (X : List Nat) :
    (leadsWith "http://".toList (dataUriOf X)
      || leadsWith "https://".toList (dataUriOf X)) = false := by
  rw [show "http://".toList = 'h' :: "ttp://".toList from rfl]
  rw [show "https://".toList = 'h' :: "ttps://".toList from rfl]
  rw [show dataUriOf X = 'd' :: ("ata:image/png;base64,".toList ++ b64encode X) from rfl]
  rw [leadsWith_cons_ne (by decide), leadsWith_cons_ne (by decide)]
  rfl

theorem extractCandidate_replicate_A (n : Nat) :
    extractCandidate (List.replicate n 'A') = List.replicate n 'A' := by
  unfold extractCandidate
  rw [partitionFirst_not_mem (by simp [List.mem_replicate])]
  simp

theorem extractCandidate_dataUri (X : List Nat) (hX : X ≠ []) :
    extractCandidate (dataUriOf X) = b64encode X := by
  unfold extractCandidate
  rw [show dataUriOf X = "data:image/png;base64".toList ++ ',' :: b64encode X from rfl]
  rw [partitionFirst_append _ _ (by decide)]
  simp [b64encode_ne_nil hX]

theorem b64decodePy_replicate_A :
    ∀ k : Nat, b64decodePy (List.replicate (4 * k) 'A') = some (List.replicate (3 * k) 0) := by
  have hfilter : ∀ n, b64filter (List.replicate n 'A') = List.replicate n 'A' := by
    intro n
    refine List.filter_eq_self.mpr ?_
    intro a ha
    rw [List.eq_of_mem_replicate ha]
    decide
  intro k
  induction k with
  | zero => rfl
  | succ k ih =>
    rw [b64decodePy, hfilter]
    rw [show 4 * (k + 1) = 4 * k + 1 + 1 + 1 + 1 by ring]
    rw [List.replicate_succ, List.replicate_succ, List.replicate_succ,
      List.replicate_succ]
    rw [b64groups, show b64IdxOf 'A' = some 0 from rfl]
    simp only [Option.some_bind]
    rw [if_neg (by decide), if_neg (by decide)]
    rw [b64decodePy, hfilter] at ih
    rw [ih]
    simp only [Option.map_some']
    rw [show 3 * (k + 1) = 3 * k + 1 + 1 + 1 by ring]
    rw [List.replicate_succ, List.replicate_succ, List.replicate_succ]

/-! ## Helper lemmas: the retry loop -/

theorem retryLoop_ok {α : Type} (f : Nat → CallRes α) (m : Nat) (fac : ℚ)
    (attempt : Nat) (rest : List Nat) (delay : ℚ) (a : α) (hf : f attempt = .ok a) :
    retryLoop f m fac (attempt :: rest) delay = (.ok (some a), [], 1) := by
  rw [retryLoop, hf]

theorem retryLoop_exn {α : Type} (f : Nat → CallRes α) (m : Nat) (fac : ℚ)
    (attempt : Nat) (rest : List Nat) (delay : ℚ) (e : PyErr) (hf : f attempt = .exn e) :
    retryLoop f m fac (attempt :: rest) delay =
      if caughtTransient e then
        if attempt < m then
          let (r, sleeps, calls) := retryLoop f m fac rest (delay * fac)
          (r, delay :: sleeps, calls + 1)
        else (.error e, [], 1)
      else (.error e, [], 1) := by
  rw [retryLoop, hf]

/-! ## The claims -/

/-- **C1**: for a function raising a transient error (connection/timeout/OS
error, or a 429 rate-limit `ReplicateError`) on every invocation,
`_retry_with_backoff` invokes it exactly 4 times (1 initial + 3 retries),
sleeping 1, 2 and 4 seconds between consecutive attempts (7 seconds of
forced wait in total), then propagates the last error; a function raising
any other error class on its first invocation propagates immediately after
a single attempt with no sleep. -/
theorem claim1_retry_bound :
    (∀ (α : Type) (f : Nat → CallRes α) (errOf : Nat → PyErr),
        (∀ n, f n = .exn (errOf n)) → (∀ n, caughtTransient (errOf n) = true) →
        retryWithBackoff f = (.error (errOf 3), [1, 2, 4], 4)
          ∧ (retryWithBackoff f).2.1.sum = 7)
    ∧ (∀ (α : Type) (f : Nat → CallRes α) (e : PyErr),
        f 0 = .exn e → caughtTransient e = false →
        retryWithBackoff f = (.error e, [], 1)) := by
  constructor
  · intro α f errOf hf ht
    have s3 : retryLoop f 3 2 [3] 8 = (.error (errOf 3), [], 1) := by
      rw [retryLoop_exn f 3 2 3 [] 8 (errOf 3) (hf 3), ht 3]
      norm_num
    have s2 : retryLoop f 3 2 [2, 3] 4 = (.error (errOf 3), [4], 2) := by
      rw [retryLoop_exn f 3 2 2 [3] 4 (errOf 2) (hf 2), ht 2]
      norm_num [s3]
    have s1 : retryLoop f 3 2 [1, 2, 3] 2 = (.error (errOf 3), [2, 4], 3) := by
      rw [retryLoop_exn f 3 2 1 [2, 3] 2 (errOf 1) (hf 1), ht 1]
      norm_num [s2]
    have s0 : retryWithBackoff f = (.error (errOf 3), [1, 2, 4], 4) := by
      rw [retryWithBackoff, show List.range 4 = [0, 1, 2, 3] from rfl]
      rw [retryLoop_exn f 3 2 0 [1, 2, 3] 1 (errOf 0) (hf 0), ht 0]
      norm_num [s1]
    refine ⟨s0, ?_⟩
    rw [s0]
    norm_num
  · intro α f e hf ht
    rw [retryWithBackoff, show List.range 4 = [0, 1, 2, 3] from rfl]
    rw [retryLoop_exn f 3 2 0 [1, 2, 3] 1 e hf, ht]
    norm_num

/-- Witness for C1: a function always raising `ConnectionError` is invoked
4 times with sleeps 1, 2, 4; a function raising a non-transient error is
invoked once with no sleep. -/
theorem claim1_retry_bound_witness :
    retryWithBackoff (fun _ => (CallRes.exn .connectionError : CallRes Unit))
        = (.error .connectionError, [1, 2, 4], 4)
      ∧ retryWithBackoff (fun _ => (CallRes.exn .otherError : CallRes Unit))
        = (.error .otherError, [], 1) :=
  ⟨(claim1_retry_bound.1 Unit _ (fun _ => .connectionError)
      (fun _ => rfl) (fun _ => rfl)).1,
    claim1_retry_bound.2 Unit _ .otherError rfl rfl⟩

/-- **C3**: for an edit request that reaches the "uploading"/building-request
checkpoint, a progress callback returning false there makes `edit_image`
return the Cancelled outcome (no pixbuf, the cancellation message) without
ever invoking `_run_streaming_prediction`. -/
theorem claim3_cancel_before_network (e : EditEnv) (hc : e.clientAvailable = true)
    (hi : e.imagePresent = true) (hp : e.cb .prepare = true)
    (hx : e.exportOk = true) (hu : e.cb .upload = false) :
    (editImageRun e).pixbuf = false
      ∧ (editImageRun e).errMsg = some .cancelled
      ∧ (editImageRun e).predictionCalled = false := by
  simp [editImageRun, hc, hi, hp, hx, hu]

/-- Witness for C3 at a concrete environment whose callback refuses the
upload checkpoint. -/
theorem claim3_cancel_before_network_witness :
    (editImageRun ⟨true, true, true,
        fun c => match c with | .upload => false | _ => true, false, true⟩).pixbuf = false
      ∧ (editImageRun ⟨true, true, true,
          fun c => match c with | .upload => false | _ => true, false, true⟩).errMsg
        = some .cancelled
      ∧ (editImageRun ⟨true, true, true,
          fun c => match c with | .upload => false | _ => true, false, true⟩).predictionCalled
        = false :=
  claim3_cancel_before_network _ rfl rfl rfl rfl rfl

theorem orEqFalse {a b : Bool} (h : (a || b) = false) : a = false ∧ b = false := by
  cases a <;> cases b <;> simp_all

/-- **C4**: for every non-URL string input to `_extract_image_bytes`,
(a) an input whose decoded length would exceed 104857600 bytes yields `None`
with `b64decode` never invoked (the encoded-length gate already fires, so
the decoded buffer is not materialized), (b) an encoded length above
134217728 characters yields `None` before decoding, and (c) malformed
base64 yields `None` rather than raising. -/
theorem claim4_base64_guards (dl : List Char → Option (List Nat)) (data : List Char)
    (hurl : (leadsWith "http://".toList data
      || leadsWith "https://".toList data) = false) :
    (∀ bs, b64decodePy (extractCandidate data) = some bs → 104857600 < bs.length →
        extractFromStringI dl data = (none, false))
    ∧ (134217728 < (extractCandidate data).length →
        extractFromStringI dl data = (none, false))
    ∧ (b64decodePy (extractCandidate data) = none →
        (extractCandidate data).length ≤ 134217728 →
        extractFromStringI dl data = (none, true)) := by
  obtain ⟨hu1, hu2⟩ := orEqFalse hurl
  simp only [show "http://".toList = ['h', 't', 't', 'p', ':', '/', '/'] from rfl,
    show "https://".toList = ['h', 't', 't', 'p', 's', ':', '/', '/'] from rfl] at hu1 hu2
  refine ⟨?_, ?_, ?_⟩
  · intro bs hdec hbig
    have hlen := b64decodePy_length _ bs hdec
    have hgate : 134217728 < (extractCandidate data).length := by omega
    simp [extractFromStringI, hu1, hu2, hgate]
  · intro hgate
    simp [extractFromStringI, hu1, hu2, hgate]
  · intro hdec hle
    have hgate : ¬ 134217728 < (extractCandidate data).length := not_lt.mpr hle
    simp [extractFromStringI, hu1, hu2, hgate, hdec]

/-- Witness for C4: a 139810136-character all-`'A'` input (which would
decode to 104857602 bytes) is rejected by the pre-decode gate, and the
malformed one-character input `"A"` yields `None` from the decode step. -/
theorem claim4_base64_guards_witness :
    extractFromStringI (fun _ => none) (List.replicate 139810136 'A') = (none, false)
      ∧ extractFromStringI (fun _ => none) ['A'] = (none, true) := by
  constructor
  · refine (claim4_base64_guards (fun _ => none) _ (notUrl_replicate_A _)).1
      (List.replicate 104857602 0) ?_ ?_
    · rw [extractCandidate_replicate_A,
        show (139810136 : Nat) = 4 * 34952534 from by norm_num]
      rw [b64decodePy_replicate_A 34952534]
    · rw [List.length_replicate]
      norm_num
  · refine (claim4_base64_guards (fun _ => none) ['A'] (by decide)).2.2 ?_ ?_
    · decide
    · decide

/-- **C7, counterexample**: the round-trip claim fails at the empty byte
string: `"data:image/png;base64," + base64(b"")` has an empty payload after
the comma, so the code falls back to decoding the whole data-URI string
(`candidate = encoded or data`), which is not valid base64 — the decoder
returns `None`, not `b""`. -/
theorem claim7_roundtrip_cex :
    (extractFromStringI (fun _ => none) (dataUriOf [])).1 ≠ some ([] : List Nat) := by
  decide

/-- **C7, amended**: for every non-empty byte string `X` within the
decoder's size bounds, `"data:image/png;base64," + base64(X)` decodes via
`_extract_image_bytes` to exactly `X`. -/
theorem claim7_roundtrip (dl : List Char → Option (List Nat)) (X : List Nat)
    (hne : X ≠ []) (hb : ∀ b ∈ X, b < 256) (hlen : X.length ≤ 100663296) :
    extractFromStringI dl (dataUriOf X) = (some X, true) := by
  obtain ⟨hu1, hu2⟩ := orEqFalse (notUrl_dataUri X)
  simp only [show "http://".toList = ['h', 't', 't', 'p', ':', '/', '/'] from rfl,
    show "https://".toList = ['h', 't', 't', 'p', 's', ':', '/', '/'] from rfl] at hu1 hu2
  have hcand := extractCandidate_dataUri X hne
  have hgate : ¬ 134217728 < (extractCandidate (dataUriOf X)).length := by
    rw [hcand, b64encode_length]
    omega
  have hdec : b64decodePy (extractCandidate (dataUriOf X)) = some X := by
    rw [hcand]
    exact b64decodePy_encode X hb
  have hsmall : ¬ 104857600 < X.length := by omega
  simp [extractFromStringI, hu1, hu2, hgate, hdec, hsmall]

/-- Witness for the amended C7 at `X = [1, 2, 3]`. -/
theorem claim7_roundtrip_witness :
    extractFromStringI (fun _ => none) (dataUriOf [1, 2, 3]) = (some [1, 2, 3], true) :=
  claim7_roundtrip (fun _ => none) [1, 2, 3] (by decide) (by decide) (by norm_num)

/-! ## Helper lemmas: reference images, downloader, traces, orchestrator -/

theorem foldl_attach_length {η : Type} (v : List Char → Option η) :
    ∀ (l : List (List Char)) (acc : List η),
      (l.foldl (fun acc imgPath =>
        match v imgPath with
        | some h => acc ++ [h]
        | none => acc) acc).length ≤ acc.length + l.length := by
  intro l
  induction l with
  | nil => intro acc; simp
  | cons x xs ih =>
    intro acc
    rw [List.foldl_cons]
    cases hv : v x with
    | some h =>
      have hrec := ih (acc ++ [h])
      simp only [hv, List.length_append, List.length_cons, List.length_nil] at hrec ⊢
      omega
    | none =>
      have hrec := ih acc
      simp only [hv, List.length_cons] at hrec ⊢
      omega

theorem addReferenceImages_length {η : Type} (v : List Char → Option η)
    (refs : List (List Char)) (cap : Nat) (hs : List η)
    (h : addReferenceImages v refs cap = some hs) : hs.length ≤ cap := by
  unfold addReferenceImages at h
  by_cases hr : refs = []
  · rw [if_pos hr] at h; cases h
  · rw [if_neg hr] at h
    by_cases he : ((refs.take cap).foldl (fun acc imgPath =>
        match v imgPath with
        | some h => acc ++ [h]
        | none => acc) []).isEmpty
    · rw [if_pos he] at h; cases h
    · rw [if_neg he] at h
      cases h
      have hfold := foldl_attach_length v (refs.take cap) []
      have htake : (refs.take cap).length ≤ cap := List.length_take_le cap refs
      simp only [List.length_nil, Nat.zero_add] at hfold
      omega

theorem attachedCount_le {η : Type} (v : List Char → Option η)
    (refs : List (List Char)) (cap : Nat) : attachedCount v refs cap ≤ cap := by
  unfold attachedCount
  cases h : addReferenceImages v refs cap with
  | none => exact Nat.zero_le cap
  | some hs => exact addReferenceImages_length v refs cap hs h

theorem addReferenceImages_truncate {η : Type} (v : List Char → Option η)
    (refs : List (List Char)) (cap : Nat) (hcap : cap ≠ 0) :
    addReferenceImages v refs cap = addReferenceImages v (refs.take cap) cap := by
  unfold addReferenceImages
  by_cases hr : refs = []
  · simp [hr]
  · have ht : refs.take cap ≠ [] := by
      simp only [ne_eq, List.take_eq_nil_iff]
      push_neg
      exact ⟨hcap, hr⟩
    rw [if_neg hr, if_neg ht, List.take_take, min_self]

theorem downloadSchemeCond (parsed : ParsedUrl) :
    (parsed.scheme = [] ∨
      (toLowerL parsed.scheme ≠ "http".toList ∧ toLowerL parsed.scheme ≠ "https".toList))
    ↔ ¬ schemeOk parsed := by
  unfold schemeOk
  tauto

theorem downloadTrustCond (parsed : ParsedUrl) :
    (¬ TRUSTED_DOMAINS.any (fun trusted => toLowerL parsed.netloc = trusted
      || endsWithL ('.' :: trusted) (toLowerL parsed.netloc)))
    ↔ ¬ hostTrusted parsed := by
  unfold hostTrusted
  simp [List.any_eq_true]

/-- The four properties C8 asserts of a progress-invocation trace: callback
invocations follow the fixed checkpoint order, no checkpoint repeats, and
the completion fractions are non-decreasing and within `[0, 1]`. -/
def progressTraceOk (t : List (Checkpoint × ℚ)) : Prop :=
  t.Pairwise (fun a b => ckPos a.1 < ckPos b.1)
  ∧ (t.map Prod.fst).Nodup
  ∧ (t.map Prod.snd).Pairwise (· ≤ ·)
  ∧ ∀ p ∈ t, 0 ≤ p.2 ∧ p.2 ≤ 1

theorem progressTraceOk_take (full : List (Checkpoint × ℚ))
    (hfull : progressTraceOk full) (n : Nat) : progressTraceOk (full.take n) := by
  obtain ⟨h1, h2, h3, h4⟩ := hfull
  have hsub : List.Sublist (full.take n) full := List.take_sublist n full
  refine ⟨h1.sublist hsub, h2.sublist (hsub.map _), h3.sublist (hsub.map _), ?_⟩
  intro p hp
  exact h4 p (hsub.subset hp)

theorem editCheckpoints_ok : progressTraceOk editCheckpoints := by
  refine ⟨by decide, by decide, ?_, ?_⟩ <;>
    norm_num [editCheckpoints, List.pairwise_cons, List.forall_mem_cons,
      PROGRESS_PREPARE, PROGRESS_UPLOAD, PROGRESS_PROCESS, PROGRESS_DOWNLOAD,
      PROGRESS_COMPLETE]

theorem genCheckpoints_ok : progressTraceOk genCheckpoints := by
  refine ⟨by decide, by decide, ?_, ?_⟩ <;>
    norm_num [genCheckpoints, List.pairwise_cons, List.forall_mem_cons,
      PROGRESS_PREPARE, PROGRESS_PROCESS, PROGRESS_DOWNLOAD, PROGRESS_COMPLETE]

set_option maxHeartbeats 1000000 in
theorem editImageRun_trace_take (e : EditEnv) :
    ∃ n, (editImageRun e).trace = editCheckpoints.take n := by
  unfold editImageRun
  split_ifs <;>
    first
    | exact ⟨0, rfl⟩
    | exact ⟨1, rfl⟩
    | exact ⟨2, rfl⟩
    | exact ⟨3, rfl⟩
    | exact ⟨4, rfl⟩
    | exact ⟨5, rfl⟩

set_option maxHeartbeats 1000000 in
theorem generateImageRun_trace_take (e : GenEnv) :
    ∃ n, (generateImageRun e).trace = genCheckpoints.take n := by
  unfold generateImageRun
  split_ifs <;>
    first
    | exact ⟨0, rfl⟩
    | exact ⟨1, rfl⟩
    | exact ⟨2, rfl⟩
    | exact ⟨3, rfl⟩
    | exact ⟨4, rfl⟩

theorem startGenerateThread_blocked (s : OrchState) (apiKey prompt : List Char)
    (mv : Option (List Char)) (hc : s.cancelRequested = true) :
    startGenerateThread s apiKey prompt mv = (s, false) := by
  unfold startGenerateThread
  rw [if_pos]
  simp [canStartProcessing, hc]

theorem startEditThread_blocked (s : OrchState) (apiKey prompt : List Char)
    (mv : Option (List Char)) (hc : s.cancelRequested = true) :
    startEditThread s apiKey prompt mv = (s, false) := by
  unfold startEditThread
  rw [if_pos]
  simp [canStartProcessing, hc]

theorem pyStrip_ne_nil_imp {s : List Char} (h : pyStrip s ≠ []) : s ≠ [] := by
  intro hs
  rw [hs] at h
  exact h rfl

/-- The per-request terminal behavior of the worker orchestrator: the
Cancelled outcome resets the processing state and fires no registered
callback; every other outcome resets the processing state and then fires
exactly one of `on_error` / `on_success`. -/
def terminalOk (r : WorkerOutcome × List WorkerEv) : Prop :=
  (r.1 = .cancelled → r.2 = [.resetProcessing])
  ∧ (r.1 ≠ .cancelled →
      r.2 = [.resetProcessing, .cbError] ∨ r.2 = [.resetProcessing, .cbSuccess])

instance (r : WorkerOutcome × List WorkerEv) : Decidable (terminalOk r) := by
  unfold terminalOk
  infer_instance

/-! ## The claims (continued) -/

/-- **C2, counterexample**: a request cancelled before the API call ends in
`_handle_cancelled`, which resets the processing state but fires neither
`on_success` nor `on_error` — zero terminal callbacks, not exactly one. -/
theorem claim2_callbacks_cex :
    generateWorkerRun ⟨true, false, true, false, false, false, true⟩
      = (.cancelled, [.resetProcessing])
    ∧ (generateWorkerRun ⟨true, false, true, false, false, false, true⟩).2.count
        WorkerEv.cbError
      + (generateWorkerRun ⟨true, false, true, false, false, false, true⟩).2.count
        WorkerEv.cbSuccess = 0 := by
  decide

/-- **C2, amended**: on every code path through either worker, the
processing state is reset first, and then exactly one of the registered
`on_success`/`on_error` callbacks fires — except on the Cancelled outcome,
which fires neither. -/
theorem claim2_terminal_callbacks (imagePresent : Bool) (e : WorkerEnv) :
    terminalOk (generateWorkerRun e) ∧ terminalOk (editWorkerRun imagePresent e) := by
  rcases e with ⟨a, b, c, d, f, g, h⟩
  cases a <;> cases b <;> cases c <;> cases d <;> cases f <;> cases g <;> cases h <;>
    cases imagePresent <;> decide

/-- **C5**: a URL whose scheme is not http/https, or whose host is neither
equal to nor a subdomain of a trusted backend domain, is rejected (`None`)
without any connection attempt; `urlopen` is reached only when both gates
pass. -/
theorem claim5_download_gates (net : Option HttpResponse) (parsed : ParsedUrl)
    (maxSizeBytes : Nat) :
    ((¬ schemeOk parsed ∨ ¬ hostTrusted parsed) →
        downloadImage net parsed maxSizeBytes = (none, false))
    ∧ ((downloadImage net parsed maxSizeBytes).2 = true →
        schemeOk parsed ∧ hostTrusted parsed) := by
  constructor
  · intro h
    by_cases hS : schemeOk parsed
    · have hT : ¬ hostTrusted parsed := h.resolve_left (not_not_intro hS)
      unfold downloadImage
      rw [if_neg ((downloadSchemeCond parsed).not.mpr (not_not_intro hS)),
        if_pos ((downloadTrustCond parsed).mpr hT)]
    · unfold downloadImage
      rw [if_pos ((downloadSchemeCond parsed).mpr hS)]
  · intro h2
    by_cases hS : schemeOk parsed
    · by_cases hT : hostTrusted parsed
      · exact ⟨hS, hT⟩
      · unfold downloadImage at h2
        rw [if_neg ((downloadSchemeCond parsed).not.mpr (not_not_intro hS)),
          if_pos ((downloadTrustCond parsed).mpr hT)] at h2
        cases h2
    · unfold downloadImage at h2
      rw [if_pos ((downloadSchemeCond parsed).mpr hS)] at h2
      cases h2

/-- Witness for C5: `https://evil.example/x.png` is rejected with no
connection attempt even though a live network response is available. -/
theorem claim5_download_gates_witness :
    downloadImage (some ⟨"image/png".toList, [[1, 2]]⟩)
      ⟨"https".toList, "evil.example".toList⟩ 100 = (none, false) :=
  (claim5_download_gates _ _ _).1 (Or.inr (by decide))

/-- **C6**: the number of reference images attached to a payload never
exceeds the mode's cap (Edit: 2, Generate: 3); excess selected paths are
silently truncated (the payload is the same as for the truncated batch),
never rejected. -/
theorem claim6_reference_cap (η : Type) (validate : List Char → Option η)
    (referenceImages : List (List Char)) :
    attachedCount validate referenceImages MAX_REFERENCE_IMAGES_EDIT
        ≤ MAX_REFERENCE_IMAGES_EDIT
    ∧ attachedCount validate referenceImages MAX_REFERENCE_IMAGES_GENERATE
        ≤ MAX_REFERENCE_IMAGES_GENERATE
    ∧ addReferenceImages validate referenceImages MAX_REFERENCE_IMAGES_EDIT
        = addReferenceImages validate (referenceImages.take MAX_REFERENCE_IMAGES_EDIT)
            MAX_REFERENCE_IMAGES_EDIT
    ∧ addReferenceImages validate referenceImages MAX_REFERENCE_IMAGES_GENERATE
        = addReferenceImages validate (referenceImages.take MAX_REFERENCE_IMAGES_GENERATE)
            MAX_REFERENCE_IMAGES_GENERATE :=
  ⟨attachedCount_le validate referenceImages _,
    attachedCount_le validate referenceImages _,
    addReferenceImages_truncate validate referenceImages _ (by decide),
    addReferenceImages_truncate validate referenceImages _ (by decide)⟩

/-- **C8**: for every edit and generate run, the progress callback is
invoked in the fixed checkpoint order, never out of order, never twice for
the same checkpoint, and the completion fractions are monotonically
non-decreasing and contained in `[0, 1]`. -/
theorem claim8_progress_order (ee : EditEnv) (ge : GenEnv) :
    progressTraceOk (editImageRun ee).trace
    ∧ progressTraceOk (generateImageRun ge).trace := by
  constructor
  · obtain ⟨n, hn⟩ := editImageRun_trace_take ee
    rw [hn]
    exact progressTraceOk_take _ editCheckpoints_ok n
  · obtain ⟨n, hn⟩ := generateImageRun_trace_take ge
    rw [hn]
    exact progressTraceOk_take _ genCheckpoints_ok n

/-- **C9**: a cancel requested while the orchestrator is Idle leaves the
cancel flag permanently set: every subsequent sequence of start/cancel
operations keeps the flag set, keeps the state Idle, and never starts a
worker, because `can_start_processing` requires the flag to be clear and
`reset_cancel` runs only after that gate has passed. -/
theorem claim9_cancel_while_idle (s : OrchState) (ops : List OrchOp)
    (hp : s.processing = false) (hc : s.cancelRequested = true) :
    (orchRun s ops).1.processing = false
    ∧ (orchRun s ops).1.cancelRequested = true
    ∧ (orchRun s ops).2 = false := by
  induction ops generalizing s with
  | nil => simp [orchRun, hp, hc]
  | cons op rest ih =>
    cases op with
    | cancel =>
      have hstep := ih (cancelProcessing s) (by simp [cancelProcessing, hp])
        (by simp [cancelProcessing])
      simp only [orchRun, orchStep]
      simp [hstep]
    | startGen apiKey prompt mv =>
      have hstep := ih s hp hc
      simp only [orchRun, orchStep, startGenerateThread_blocked s apiKey prompt mv hc]
      simp [hstep]
    | startEdit apiKey prompt mv =>
      have hstep := ih s hp hc
      simp only [orchRun, orchStep, startEditThread_blocked s apiKey prompt mv hc]
      simp [hstep]

/-- Witness for C9: a concrete idle-but-cancelled orchestrator ignores a
start request and a further cancel. -/
theorem claim9_cancel_while_idle_witness :
    (orchRun ⟨false, true, none, true, true⟩
        [.startGen "k".toList "p".toList (some "m".toList), .cancel]).1.processing = false
    ∧ (orchRun ⟨false, true, none, true, true⟩
        [.startGen "k".toList "p".toList (some "m".toList), .cancel]).1.cancelRequested = true
    ∧ (orchRun ⟨false, true, none, true, true⟩
        [.startGen "k".toList "p".toList (some "m".toList), .cancel]).2 = false :=
  claim9_cancel_while_idle _ _ rfl rfl

/-- **C10**: with the replicate package importable, `__init__` raises the
missing-credential `ValueError` iff both the passed key and the environment
token are empty after stripping; a non-blank passed key wins, a blank passed
key falls back to the stripped environment token, and an empty
`model_version` is accepted without error. -/
theorem claim10_credential_resolution (clientConstructs : Bool) (apiKey : List Char)
    (envToken : Option (List Char)) (modelVersion : List Char) :
    (replicateInit true clientConstructs apiKey envToken modelVersion
        = .error .valueError
      ↔ pyStrip apiKey = [] ∧ pyStrip (envToken.getD []) = [])
    ∧ (pyStrip apiKey ≠ [] → clientConstructs = true →
        replicateInit true clientConstructs apiKey envToken modelVersion
          = .ok ⟨pyStrip apiKey, if modelVersion ≠ [] then pyStrip modelVersion else []⟩)
    ∧ (pyStrip apiKey = [] → pyStrip (envToken.getD []) ≠ [] → clientConstructs = true →
        replicateInit true clientConstructs apiKey envToken modelVersion
          = .ok ⟨pyStrip (envToken.getD []),
              if modelVersion ≠ [] then pyStrip modelVersion else []⟩)
    ∧ (pyStrip apiKey ≠ [] → clientConstructs = true →
        replicateInit true clientConstructs apiKey envToken []
          = .ok ⟨pyStrip apiKey, []⟩) := by
  by_cases hk : pyStrip apiKey = []
  · by_cases he : pyStrip (envToken.getD []) = []
    · refine ⟨?_, ?_, ?_, ?_⟩
      · simp [replicateInit, hk, he]
      · intro h; exact absurd hk h
      · intro _ h; exact absurd he h
      · intro h; exact absurd hk h
    · refine ⟨?_, ?_, ?_, ?_⟩
      · cases clientConstructs <;> simp [replicateInit, hk, he]
      · intro h; exact absurd hk h
      · intro _ _ hcl
        subst hcl
        simp [replicateInit, hk, he]
      · intro h; exact absurd hk h
  · have ha : apiKey ≠ [] := pyStrip_ne_nil_imp hk
    refine ⟨?_, ?_, ?_, ?_⟩
    · cases clientConstructs <;> simp [replicateInit, hk, ha]
    · intro _ hcl
      subst hcl
      simp [replicateInit, hk, ha]
    · intro h; exact absurd h hk
    · intro _ hcl
      subst hcl
      simp [replicateInit, hk, ha]

/-- Witness for C10: a whitespace-only key falls back to the stripped
environment token. -/
theorem claim10_credential_resolution_witness :
    replicateInit true true "  ".toList (some " tok ".toList) "m".toList
      = .ok ⟨"tok".toList, "m".toList⟩ := by
  have h := (claim10_credential_resolution true "  ".toList
      (some " tok ".toList) "m".toList).2.2.1 (by decide) (by decide) rfl
  rw [h]
  rfl

end DreamPrompter
